import Mathlib

/-!
Shallow embedding of the diabetic-retinopathy detection app (src/app.py).

External libraries (PIL, TensorFlow/Keras, json, the filesystem) are modelled
as explicit oracle records; the code of the app itself is translated function
by function from the source.  Floating point scalars are modelled as rationals.
-/

/-- Python truthiness of an optional string value (the app tests `if error:`):
`None` and the empty string are falsy, every other string is truthy. -/
def pyTruthy : Option String → Bool
  | none => false
  | some s => s != ""

/-- A loaded Keras model handle; its behaviour lives in the oracle records. -/
abbrev ModelHandle := Unit

/-- Parsed model metadata (the content of `metadata.json`). -/
structure ModelMetadata where
  classes : List String
  test_accuracy : ℚ
  test_auc : ℚ
  architecture : String
deriving DecidableEq

/-- Filesystem and framework oracle for `load_trained_model`:
which paths exist, what `load_model` does on a path, and what
`json.load` yields on a path (`Except.error` = the call raised;
`Except.ok none` = the file parsed to JSON null). -/
structure FS where
  pathExists : String → Bool
  loadModelResult : String → Except String ModelHandle
  parseMeta : String → Except String (Option ModelMetadata)

/-- The candidate model paths (src/app.py:87-92), in order. -/
def possible_paths : List String :=
  ["models/best_model.h5", "models/dr_model_final.h5", "best_model.h5", "dr_model_final.h5"]

/-- The candidate metadata paths (src/app.py:104), in order. -/
def metadata_paths : List String := ["models/metadata.json", "metadata.json"]

/-- The hard-coded fallback metadata record (src/app.py:113-119). -/
def default_metadata : ModelMetadata :=
  { classes := ["DR", "No_DR"], test_accuracy := 96/100, test_auc := 99/100,
    architecture := "EfficientNetB3" }

/-- Translation of `load_trained_model` (src/app.py:84-124): take the first
existing model candidate (returning the fixed error when there is none), load
it, then take the first existing metadata candidate and parse it, falling back
to `default_metadata`; any exception raised inside is caught and returned as
its message string. -/
def load_trained_model (fs : FS) :
    Option ModelHandle × Option ModelMetadata × Option String :=
  match (possible_paths.filter fs.pathExists).head? with
  | none => (none, none, some "Model file not found")
  | some model_path =>
    match fs.loadModelResult model_path with
    | Except.error e => (none, none, some e)
    | Except.ok model =>
      match (match (metadata_paths.filter fs.pathExists).head? with
             | none => Except.ok none
             | some meta_path => fs.parseMeta meta_path : Except String (Option ModelMetadata)) with
      | Except.error e => (none, none, some e)
      | Except.ok m => (some model, some (m.getD default_metadata), none)

/-- A filesystem on which no candidate path exists at all. -/
def fsEmpty : FS :=
  { pathExists := fun _ => false
  , loadModelResult := fun _ => Except.error "unused"
  , parseMeta := fun _ => Except.error "unused" }

/-- A filesystem holding exactly one valid model file and no metadata file. -/
def fsModelOnly : FS :=
  { pathExists := fun p => p == "models/best_model.h5"
  , loadModelResult := fun _ => Except.ok ()
  , parseMeta := fun _ => Except.error "unused" }

/-- Claim C3, counterexample: when no model candidate path exists, the app
returns a NULL metadata record (alongside the null model and the error
string), not the parsed-or-default metadata the claim asserts. -/
theorem C3_counterexample :
    (possible_paths.all fun p => !fsEmpty.pathExists p) = true ∧
    load_trained_model fsEmpty = (none, none, some "Model file not found") ∧
    (load_trained_model fsEmpty).2.1 ≠ some default_metadata := by
  refine ⟨rfl, rfl, ?_⟩
  decide

/-- Claim C3, amended: when no model candidate path exists,
`load_trained_model` returns a null model, a NULL metadata record and the
error string "Model file not found"; metadata resolution is not performed in
this case. -/
theorem C3_amended_no_model (fs : FS)
    (h : ∀ p ∈ possible_paths, fs.pathExists p = false) :
    load_trained_model fs = (none, none, some "Model file not found") := by
  have h1 := h "models/best_model.h5" (by simp [possible_paths])
  have h2 := h "models/dr_model_final.h5" (by simp [possible_paths])
  have h3 := h "best_model.h5" (by simp [possible_paths])
  have h4 := h "dr_model_final.h5" (by simp [possible_paths])
  simp [load_trained_model, possible_paths, h1, h2, h3, h4]

/-- Claim C3, witness for the amended theorem, at the empty filesystem. -/
theorem C3_amended_witness :
    (∀ p ∈ possible_paths, fsEmpty.pathExists p = false) ∧
    load_trained_model fsEmpty = (none, none, some "Model file not found") :=
  ⟨by decide, C3_amended_no_model fsEmpty (by decide)⟩

/-- Claim C8: when a model file loads successfully and no metadata candidate
path exists, the returned metadata is exactly the default record. -/
theorem C8_default_metadata (fs : FS) (mp : String) (m : ModelHandle)
    (h1 : (possible_paths.filter fs.pathExists).head? = some mp)
    (h2 : fs.loadModelResult mp = Except.ok m)
    (h3 : ∀ p ∈ metadata_paths, fs.pathExists p = false) :
    load_trained_model fs = (some m, some default_metadata, none) := by
  have g1 := h3 "models/metadata.json" (by simp [metadata_paths])
  have g2 := h3 "metadata.json" (by simp [metadata_paths])
  simp [load_trained_model, h1, h2, metadata_paths, g1, g2, default_metadata]

/-- Claim C8, witness: a filesystem with only `models/best_model.h5`. -/
theorem C8_witness :
    ((possible_paths.filter fsModelOnly.pathExists).head? = some "models/best_model.h5" ∧
      fsModelOnly.loadModelResult "models/best_model.h5" = Except.ok () ∧
      (∀ p ∈ metadata_paths, fsModelOnly.pathExists p = false)) ∧
    load_trained_model fsModelOnly = (some (), some default_metadata, none) :=
  ⟨⟨by decide, rfl, by decide⟩,
    C8_default_metadata fsModelOnly "models/best_model.h5" () (by decide) rfl (by decide)⟩

/-- A PIL image: only the attributes the app reads (mode and pixel size). -/
structure Img where
  mode : String
  width : Nat
  height : Nat
deriving DecidableEq

/-- A numpy array, tracked by shape and dtype. -/
structure Tensor where
  shape : List Nat
  dtype : String
deriving DecidableEq

/-- Oracle for the external image and inference libraries: which PIL calls
raise (and with what message), whether `model.predict` raises, and the scalar
probability the model returns. -/
structure Env where
  convertErr : Img → Option String
  resizeErr : Img → Option String
  inferErr : Option Tensor → Option String
  inferOut : Option Tensor → ℚ

/-- `image.convert("RGB")`: may raise (oracle), otherwise the same picture in
mode RGB. -/
def pilConvertRGB (env : Env) (i : Img) : Except String Img :=
  match env.convertErr i with
  | some e => Except.error e
  | none => Except.ok { i with mode := "RGB" }

/-- `image.resize((w, h), Image.LANCZOS)`: may raise (oracle); otherwise a
direct resize to exactly the target size — no crop, no padding. -/
def pilResize (env : Env) (i : Img) (w h : Nat) : Except String Img :=
  match env.resizeErr i with
  | some e => Except.error e
  | none => Except.ok { i with width := w, height := h }

/-- `np.array(image, dtype=np.float32)` on an RGB image of size w×h: a
float32 array of shape (h, w, 3). -/
def np_array_f32 (i : Img) : Tensor :=
  { shape := [i.height, i.width, 3], dtype := "float32" }

/-- `np.expand_dims(a, axis=0)`: adds a leading batch axis of size 1. -/
def np_expand_dims0 (t : Tensor) : Tensor := { t with shape := 1 :: t.shape }

/-- Keras EfficientNet `preprocess_input` is a pass-through (the rescaling is
part of the model itself); shape and dtype are unchanged. -/
def efficientnet_preprocess_input (t : Tensor) : Tensor := t

/-- Translation of `preprocess_image` (src/app.py:129-142): force 3-channel
RGB if needed, resize to 224×224, take the float32 array, add the batch axis,
apply `preprocess_input`; any exception raised inside is caught and returned
as its message string. -/
def preprocess_image (env : Env) (image : Img) : Option Tensor × Option String :=
  match (if image.mode ≠ "RGB" then pilConvertRGB env image else Except.ok image) with
  | Except.error e => (none, some e)
  | Except.ok img1 =>
    match pilResize env img1 224 224 with
    | Except.error e => (none, some e)
    | Except.ok img2 =>
      (some (efficientnet_preprocess_input (np_expand_dims0 (np_array_f32 img2))), none)

/-- Translation of `predict_image` (src/app.py:144-170): fail at once when the
model handle is null; run preprocessing and return its error when that error
is truthy (note: `if error:` — an empty message is falsy); otherwise run the
model (a raise is caught and returned as its message), read the scalar as the
probability of No_DR, and threshold it at 0.5.  Returns
(label, confidence, error). -/
def predict_image (env : Env) (model : Option ModelHandle) (image : Img) :
    Option String × Option ℚ × Option String :=
  match model with
  | none => (none, none, some "Model not loaded")
  | some _ =>
    if pyTruthy (preprocess_image env image).2 then
      (none, none, (preprocess_image env image).2)
    else
      match env.inferErr (preprocess_image env image).1 with
      | some e => (none, none, some e)
      | none =>
        if env.inferOut (preprocess_image env image).1 > 1/2 then
          (some "No_Diabetic_Retinopathy", some (env.inferOut (preprocess_image env image).1), none)
        else
          (some "Diabetic_Retinopathy", some (1 - env.inferOut (preprocess_image env image).1), none)

/-- An environment in which nothing raises and the model outputs exactly 0.5. -/
def envClean : Env :=
  { convertErr := fun _ => none, resizeErr := fun _ => none
  , inferErr := fun _ => none, inferOut := fun _ => 1/2 }

/-- Claim C7: with no model handle, predict fails immediately with
"Model not loaded", null label and null confidence; the result does not
depend on the image or on the environment, so neither preprocessing nor
inference is attempted. -/
theorem C7_model_not_loaded (env env2 : Env) (image image2 : Img) :
    predict_image env none image = (none, none, some "Model not loaded") ∧
    predict_image env none image = predict_image env2 none image2 :=
  ⟨rfl, rfl⟩

/-- Claim C6: every successful preprocessing yields a float32 tensor of shape
exactly (1, 224, 224, 3), whatever the original size and mode. -/
theorem C6_preprocess_shape (env : Env) (image : Img) (t : Tensor)
    (h : (preprocess_image env image).1 = some t) :
    t.shape = [1, 224, 224, 3] ∧ t.dtype = "float32" := by
  unfold preprocess_image at h
  split at h
  · simp at h
  · rename_i img1 heq1
    rcases hre : pilResize env img1 224 224 with e | img2
    · rw [hre] at h; simp at h
    · rw [hre] at h
      simp only [Option.some.injEq] at h
      have himg2 : img2.width = 224 ∧ img2.height = 224 := by
        unfold pilResize at hre
        rcases hconv : env.resizeErr img1 with _ | e
        · rw [hconv] at hre
          simp only [Except.ok.injEq] at hre
          rw [← hre]
          exact ⟨rfl, rfl⟩
        · rw [hconv] at hre; simp at hre
      rw [← h]
      simp [efficientnet_preprocess_input, np_expand_dims0, np_array_f32,
        himg2.1, himg2.2]

/-- Claim C6, witness: a grayscale 640×480 image preprocesses to shape
(1, 224, 224, 3) with dtype float32. -/
theorem C6_witness :
    (preprocess_image envClean ⟨"L", 640, 480⟩).1 =
      some ⟨[1, 224, 224, 3], "float32"⟩ ∧
    (([1, 224, 224, 3] : List Nat) = [1, 224, 224, 3] ∧
      ("float32" : String) = "float32") :=
  ⟨rfl, C6_preprocess_shape envClean ⟨"L", 640, 480⟩ ⟨[1, 224, 224, 3], "float32"⟩ rfl⟩

/-- Claim C1: for a model output p in [0,1] obtained without any failure, the
fixed 0.5-threshold rule: p > 0.5 gives label No_Diabetic_Retinopathy with
confidence p, otherwise (including p = 0.5 exactly) label
Diabetic_Retinopathy with confidence 1−p; consequently the confidence equals
max(p, 1−p) and lies in [0,1]. -/
theorem C1_decision_rule (env : Env) (image : Img) (p : ℚ)
    (hp0 : 0 ≤ p) (hp1 : p ≤ 1)
    (hpre : pyTruthy (preprocess_image env image).2 = false)
    (hinf : env.inferErr (preprocess_image env image).1 = none)
    (hout : env.inferOut (preprocess_image env image).1 = p) :
    predict_image env (some ()) image =
      (if p > 1/2 then (some "No_Diabetic_Retinopathy", some p, none)
       else (some "Diabetic_Retinopathy", some (1 - p), none)) ∧
    (predict_image env (some ()) image).2.1 = some (max p (1 - p)) ∧
    0 ≤ max p (1 - p) ∧ max p (1 - p) ≤ 1 := by
  have hpred : predict_image env (some ()) image =
      (if p > 1/2 then (some "No_Diabetic_Retinopathy", some p, none)
       else (some "Diabetic_Retinopathy", some (1 - p), none)) := by
    unfold predict_image
    rw [hpre, hinf]
    simp only [Bool.false_eq_true, if_false, hout]
  refine ⟨hpred, ?_, le_trans hp0 (le_max_left _ _), max_le hp1 (by linarith)⟩
  rw [hpred]
  rcases le_or_lt p (1/2) with h | h
  · rw [if_neg (by simpa using not_lt.mpr h), max_eq_right (by linarith)]
  · rw [if_pos (by simpa using h), max_eq_left (by linarith)]

/-- Claim C1, witness at the boundary p = 0.5: classified as DR with
confidence 0.5. -/
theorem C1_witness :
    ((0 : ℚ) ≤ 1/2 ∧ (1/2 : ℚ) ≤ 1 ∧
      pyTruthy (preprocess_image envClean ⟨"RGB", 5, 5⟩).2 = false ∧
      envClean.inferErr (preprocess_image envClean ⟨"RGB", 5, 5⟩).1 = none ∧
      envClean.inferOut (preprocess_image envClean ⟨"RGB", 5, 5⟩).1 = 1/2) ∧
    (predict_image envClean (some ()) ⟨"RGB", 5, 5⟩ =
      (if (1/2 : ℚ) > 1/2 then (some "No_Diabetic_Retinopathy", some (1/2), none)
       else (some "Diabetic_Retinopathy", some (1 - 1/2), none)) ∧
     (predict_image envClean (some ()) ⟨"RGB", 5, 5⟩).2.1 =
       some (max (1/2) (1 - 1/2)) ∧
     (0 : ℚ) ≤ max (1/2) (1 - 1/2) ∧ max ((1 : ℚ)/2) (1 - 1/2) ≤ 1) :=
  ⟨⟨by norm_num, by norm_num, rfl, rfl, rfl⟩,
    C1_decision_rule envClean ⟨"RGB", 5, 5⟩ (1/2) (by norm_num) (by norm_num) rfl rfl rfl⟩

/-- An environment in which resizing raises an exception whose message is the
empty string, and inference on the missing tensor raises with its own
message. -/
def envEmptyMsg : Env :=
  { convertErr := fun _ => none
  , resizeErr := fun _ => some ""
  , inferErr := fun _ => some "NoneType object is not subscriptable"
  , inferOut := fun _ => 0 }

/-- Claim C5, counterexample: preprocessing fails with the empty error
string, but predict does NOT propagate it unchanged — the empty string is
falsy in `if error:`, so inference is attempted and its failure message is
returned instead. -/
theorem C5_counterexample :
    (preprocess_image envEmptyMsg ⟨"RGB", 5, 5⟩).2 = some "" ∧
    predict_image envEmptyMsg (some ()) ⟨"RGB", 5, 5⟩ ≠ (none, none, some "") := by
  refine ⟨rfl, ?_⟩
  decide

/-- Claim C5, amended: preprocessing always returns a well-formed
result-or-error pair (failures are caught, never raised), and predict
propagates a preprocessing error unchanged whenever the error message is
non-empty; an empty message is falsy in the `if error:` test, so inference is
attempted instead and its own failure is what gets reported. -/
theorem C5_error_propagation (env : Env) (image : Img) :
    ((∃ t, preprocess_image env image = (some t, none)) ∨
      (∃ e, preprocess_image env image = (none, some e))) ∧
    (∀ e, e ≠ "" → (preprocess_image env image).2 = some e →
      predict_image env (some ()) image = (none, none, some e)) := by
  constructor
  · unfold preprocess_image
    split
    · exact Or.inr ⟨_, rfl⟩
    · rename_i img1 heq1
      rcases pilResize env img1 224 224 with e | img2
      · exact Or.inr ⟨_, rfl⟩
      · exact Or.inl ⟨_, rfl⟩
  · intro e he hpe
    have htr : pyTruthy (preprocess_image env image).2 = true := by
      rw [hpe]
      simp [pyTruthy, he]
    unfold predict_image
    rw [htr, hpe]
    simp

/-- An environment in which resizing raises with a non-empty message. -/
def envBadResize : Env :=
  { convertErr := fun _ => none, resizeErr := fun _ => some "cannot resize"
  , inferErr := fun _ => none, inferOut := fun _ => 0 }

/-- Claim C5, witness for the amended theorem: a non-empty preprocessing
error is propagated unchanged by predict. -/
theorem C5_witness :
    ("cannot resize" ≠ "" ∧
      (preprocess_image envBadResize ⟨"RGB", 5, 5⟩).2 = some "cannot resize") ∧
    predict_image envBadResize (some ()) ⟨"RGB", 5, 5⟩ =
      (none, none, some "cannot resize") :=
  ⟨⟨by decide, rfl⟩,
    (C5_error_propagation envBadResize ⟨"RGB", 5, 5⟩).2 "cannot resize" (by decide) rfl⟩

/-- An uploaded file in the batch uploader: its name and the outcome of
`Image.open` on it (`Except.error` = the open raised). -/
structure UploadedFile where
  name : String
  content : Except String Img

/-- One row of the batch results table (src/app.py:356-369). -/
structure BatchRecord where
  Filename : String
  Prediction : String
  Confidence : String
  Status : String
deriving DecidableEq

/-- The row appended for a failing batch item (src/app.py:356-361, 371-376):
both the predict-error branch and the bare-except branch append this same
row. -/
def failed_record (filename : String) : BatchRecord :=
  { Filename := filename, Prediction := "Error", Confidence := "N/A", Status := "Failed" }

/-- Display of a rational q as the two-decimal percentage of the f-string
`confidence*100:.2f` followed by a percent sign. -/
def pct2 (q : ℚ) : String :=
  toString (round (q * 10000) / 100 : ℤ) ++ "." ++
    (if round (q * 10000) % 100 < 10 then "0" else "") ++
    toString (round (q * 10000) % 100 : ℤ) ++ "%"

/-- Translation of one iteration of the batch loop (src/app.py:348-378).
The whole body runs inside `try`.  Building the success row evaluates the
f-string on `confidence*100`, which raises TypeError when confidence is None;
the bare `except` then appends the failed row, which is why the
confidence-is-None case below also yields `failed_record`. -/
def processFile (env : Env) (model : Option ModelHandle) (file : UploadedFile) :
    BatchRecord :=
  match file.content with
  | Except.error _ => failed_record file.name
  | Except.ok image =>
    if pyTruthy (predict_image env model image).2.2 then failed_record file.name
    else
      match (predict_image env model image).2.1 with
      | none => failed_record file.name
      | some c =>
        { Filename := file.name
        , Prediction := ((predict_image env model image).1).getD "None"
        , Confidence := pct2 c
        , Status :=
            if (predict_image env model image).1 == some "Diabetic_Retinopathy"
            then "DR Detected" else "No DR" }

/-- The batch loop itself: starting from the empty list, appends exactly one
record per uploaded file, in input order. -/
def process_batch (env : Env) (model : Option ModelHandle)
    (files : List UploadedFile) : List BatchRecord :=
  files.foldl (fun results file => results ++ [processFile env model file]) []

/-- Python substring membership `needle in hay`, over character lists. -/
def containsSub (needle : List Char) : List Char → Bool
  | [] => needle.isEmpty
  | c :: cs => needle.isPrefixOf (c :: cs) || containsSub needle cs

/-- Python `needle in hay` on strings. -/
def pyIn (needle hay : String) : Bool := containsSub needle.toList hay.toList

/-- The summary counters (src/app.py:389-392): substring tests over the
Status column, exactly as in the source.  Returns
(total, positive, negative, failed). -/
def batch_summary (results : List BatchRecord) : Nat × Nat × Nat × Nat :=
  ( results.length
  , (results.filter fun r => pyIn "DR Detected" r.Status).length
  , (results.filter fun r => pyIn "No DR" r.Status).length
  , (results.filter fun r => pyIn "Failed" r.Status).length )

/-- A batch input fails when opening the image raises or when predict
returns an error. -/
def itemFailed (env : Env) (model : Option ModelHandle) (file : UploadedFile) : Bool :=
  match file.content with
  | Except.error _ => true
  | Except.ok image => ((predict_image env model image).2.2).isSome

/-- The prediction on this file succeeded with the label
Diabetic_Retinopathy and no error. -/
def predDR (env : Env) (model : Option ModelHandle) (file : UploadedFile) : Prop :=
  ∃ img, file.content = Except.ok img ∧
    (predict_image env model img).1 = some "Diabetic_Retinopathy" ∧
    (predict_image env model img).2.2 = none

/-- The prediction on this file succeeded with the label
No_Diabetic_Retinopathy and no error. -/
def predNoDR (env : Env) (model : Option ModelHandle) (file : UploadedFile) : Prop :=
  ∃ img, file.content = Except.ok img ∧
    (predict_image env model img).1 = some "No_Diabetic_Retinopathy" ∧
    (predict_image env model img).2.2 = none

lemma foldl_append_map {α β : Type} (f : α → β) (l : List α) (acc : List β) :
    l.foldl (fun r a => r ++ [f a]) acc = acc ++ l.map f := by
  induction l generalizing acc with
  | nil => simp
  | cons a l ih => simp [ih]

lemma process_batch_eq_map (env : Env) (model : Option ModelHandle)
    (files : List UploadedFile) :
    process_batch env model files = files.map (processFile env model) := by
  simpa using foldl_append_map (processFile env model) files []

/-- predict_image only ever returns one of the two labels with a confidence
and no error, or no label, no confidence and an error. -/
lemma predict_image_cases (env : Env) (model : Option ModelHandle) (image : Img) :
    (∃ c, predict_image env model image = (some "No_Diabetic_Retinopathy", some c, none)) ∨
    (∃ c, predict_image env model image = (some "Diabetic_Retinopathy", some c, none)) ∨
    (∃ e, predict_image env model image = (none, none, some e)) := by
  unfold predict_image
  split
  · exact Or.inr (Or.inr ⟨_, rfl⟩)
  · split
    · rename_i htr
      rcases hpe : (preprocess_image env image).2 with _ | e
      · rw [hpe] at htr; simp [pyTruthy] at htr
      · exact Or.inr (Or.inr ⟨e, rfl⟩)
    · split
      · exact Or.inr (Or.inr ⟨_, rfl⟩)
      · split
        · exact Or.inl ⟨_, rfl⟩
        · exact Or.inr (Or.inl ⟨_, rfl⟩)

/-- Per-item trichotomy: every batch item is exactly one of failed,
DR-detected, no-DR, with the matching row status and failure flag. -/
lemma batch_trichotomy (env : Env) (model : Option ModelHandle) (file : UploadedFile) :
    (processFile env model file = failed_record file.name ∧
      (processFile env model file).Status = "Failed" ∧
      itemFailed env model file = true ∧
      ¬predDR env model file ∧ ¬predNoDR env model file) ∨
    ((processFile env model file).Status = "DR Detected" ∧
      itemFailed env model file = false ∧
      predDR env model file ∧ ¬predNoDR env model file) ∨
    ((processFile env model file).Status = "No DR" ∧
      itemFailed env model file = false ∧
      ¬predDR env model file ∧ predNoDR env model file) := by
  rcases hfc : file.content with e | img
  · refine Or.inl ⟨?_, ?_, ?_, ?_, ?_⟩
    · simp [processFile, hfc]
    · simp [processFile, hfc, failed_record]
    · simp [itemFailed, hfc]
    · rintro ⟨img, hok, -, -⟩; rw [hfc] at hok; cases hok
    · rintro ⟨img, hok, -, -⟩; rw [hfc] at hok; cases hok
  · rcases predict_image_cases env model img with ⟨c, hp⟩ | ⟨c, hp⟩ | ⟨e, hp⟩
    · refine Or.inr (Or.inr ⟨?_, ?_, ?_, ?_⟩)
      · simp [processFile, hfc, hp, pyTruthy]
      · simp [itemFailed, hfc, hp]
      · rintro ⟨img2, hok2, h1, -⟩
        rw [hfc] at hok2
        cases hok2
        rw [hp] at h1
        simp at h1
      · exact ⟨img, hfc, by rw [hp], by rw [hp]⟩
    · refine Or.inr (Or.inl ⟨?_, ?_, ?_, ?_⟩)
      · simp [processFile, hfc, hp, pyTruthy]
      · simp [itemFailed, hfc, hp]
      · exact ⟨img, hfc, by rw [hp], by rw [hp]⟩
      · rintro ⟨img2, hok2, h1, -⟩
        rw [hfc] at hok2
        cases hok2
        rw [hp] at h1
        simp at h1
    · refine Or.inl ⟨?_, ?_, ?_, ?_, ?_⟩
      · by_cases he : e = ""
        · subst he; simp [processFile, hfc, hp, pyTruthy]
        · simp [processFile, hfc, hp, pyTruthy, he]
      · by_cases he : e = ""
        · subst he; simp [processFile, hfc, hp, pyTruthy, failed_record]
        · simp [processFile, hfc, hp, pyTruthy, he, failed_record]
      · simp [itemFailed, hfc, hp]
      · rintro ⟨img2, hok2, -, h2⟩
        rw [hfc] at hok2
        cases hok2
        rw [hp] at h2
        simp at h2
      · rintro ⟨img2, hok2, -, h2⟩
        rw [hfc] at hok2
        cases hok2
        rw [hp] at h2
        simp at h2

lemma pyIn_status_failed :
    pyIn "DR Detected" "Failed" = false ∧ pyIn "No DR" "Failed" = false ∧
    pyIn "Failed" "Failed" = true := by decide

lemma pyIn_status_dr :
    pyIn "DR Detected" "DR Detected" = true ∧ pyIn "No DR" "DR Detected" = false ∧
    pyIn "Failed" "DR Detected" = false := by decide

lemma pyIn_status_nodr :
    pyIn "DR Detected" "No DR" = false ∧ pyIn "No DR" "No DR" = true ∧
    pyIn "Failed" "No DR" = false := by decide

lemma summary_counts (env : Env) (model : Option ModelHandle) (files : List UploadedFile) :
    ((files.map (processFile env model)).filter fun r => pyIn "Failed" r.Status).length
      = (files.filter fun f => itemFailed env model f).length ∧
    ((files.map (processFile env model)).filter fun r => pyIn "DR Detected" r.Status).length
      + ((files.map (processFile env model)).filter fun r => pyIn "No DR" r.Status).length
      + ((files.map (processFile env model)).filter fun r => pyIn "Failed" r.Status).length
      = files.length := by
  induction files with
  | nil => simp
  | cons f fs ih =>
    obtain ⟨ihF, ihS⟩ := ih
    rcases batch_trichotomy env model f with ⟨-, hS, hf, -, -⟩ | ⟨hS, hf, -, -⟩ | ⟨hS, hf, -, -⟩
    · simp [List.filter_cons, hS, hf, pyIn_status_failed.1, pyIn_status_failed.2.1,
        pyIn_status_failed.2.2]
      omega
    · simp [List.filter_cons, hS, hf, pyIn_status_dr.1, pyIn_status_dr.2.1,
        pyIn_status_dr.2.2]
      omega
    · simp [List.filter_cons, hS, hf, pyIn_status_nodr.1, pyIn_status_nodr.2.1,
        pyIn_status_nodr.2.2]
      omega

/-- Claim C2: for any batch, the summary computed from the produced records
has failed equal to the number of failing inputs, positive plus negative
equal to the number of inputs minus failed, and
positive + negative + failed = total = number of input images. -/
theorem C2_summary (env : Env) (model : Option ModelHandle) (files : List UploadedFile) :
    (batch_summary (process_batch env model files)).1 = files.length ∧
    (batch_summary (process_batch env model files)).2.2.2
      = (files.filter fun f => itemFailed env model f).length ∧
    (batch_summary (process_batch env model files)).2.1
      + (batch_summary (process_batch env model files)).2.2.1
      = files.length - (batch_summary (process_batch env model files)).2.2.2 ∧
    (batch_summary (process_batch env model files)).2.1
      + (batch_summary (process_batch env model files)).2.2.1
      + (batch_summary (process_batch env model files)).2.2.2
      = files.length := by
  obtain ⟨hF, hS⟩ := summary_counts env model files
  rw [process_batch_eq_map]
  refine ⟨by simp [batch_summary], by simpa [batch_summary] using hF, ?_,
    by simpa [batch_summary] using hS⟩
  simp only [batch_summary]
  omega

/-- The default used for out-of-range indexing in C4: a nameless file whose
open raised. -/
def fileDefault : UploadedFile := { name := "", content := Except.error "" }

lemma getD_map_processFile (env : Env) (model : Option ModelHandle)
    (files : List UploadedFile) (i : Nat) :
    (files.map (processFile env model)).getD i (failed_record "")
      = processFile env model (files.getD i fileDefault) := by
  induction files generalizing i with
  | nil => cases i <;> rfl
  | cons f fs ih =>
    cases i with
    | zero => rfl
    | succ n => simpa using ih n

lemma processFile_filename (env : Env) (model : Option ModelHandle) (file : UploadedFile) :
    (processFile env model file).Filename = file.name := by
  rcases hfc : file.content with e | img
  · simp [processFile, hfc, failed_record]
  · simp only [processFile, hfc]
    split
    · simp [failed_record]
    · split
      · simp [failed_record]
      · rfl

lemma processFile_status_iffs (env : Env) (model : Option ModelHandle) (file : UploadedFile) :
    ((processFile env model file).Status = "DR Detected" ↔ predDR env model file) ∧
    ((processFile env model file).Status = "No DR" ↔ predNoDR env model file) ∧
    ((processFile env model file).Status = "Failed" ↔
      ¬predDR env model file ∧ ¬predNoDR env model file) := by
  rcases batch_trichotomy env model file with ⟨-, hS, -, hD, hN⟩ | ⟨hS, -, hD, hN⟩ | ⟨hS, -, hD, hN⟩
  · rw [hS]
    exact ⟨⟨fun h => absurd h (by decide), fun h => absurd h hD⟩,
      ⟨fun h => absurd h (by decide), fun h => absurd h hN⟩,
      ⟨fun _ => ⟨hD, hN⟩, fun _ => rfl⟩⟩
  · rw [hS]
    exact ⟨⟨fun _ => hD, fun _ => rfl⟩,
      ⟨fun h => absurd h (by decide), fun h => absurd h hN⟩,
      ⟨fun h => absurd h (by decide), fun h => absurd hD h.1⟩⟩
  · rw [hS]
    exact ⟨⟨fun h => absurd h (by decide), fun h => absurd h hD⟩,
      ⟨fun _ => hN, fun _ => rfl⟩,
      ⟨fun h => absurd h (by decide), fun h => absurd hN h.2⟩⟩

/-- Claim C4: the batch loop produces exactly one record per input image, in
input order — the i-th record is exactly the record computed from the i-th
file alone, so one failing image cannot abort or affect the rest — and a
record's status is "DR Detected" exactly when prediction succeeded with label
Diabetic_Retinopathy, "No DR" exactly when it succeeded with label
No_Diabetic_Retinopathy, and "Failed" otherwise. -/
theorem C4_records (env : Env) (model : Option ModelHandle)
    (files : List UploadedFile) (i : Nat) :
    (process_batch env model files).length = files.length ∧
    (process_batch env model files).getD i (failed_record "")
      = processFile env model (files.getD i fileDefault) ∧
    ((process_batch env model files).getD i (failed_record "")).Filename
      = (files.getD i fileDefault).name ∧
    (((process_batch env model files).getD i (failed_record "")).Status = "DR Detected"
      ↔ predDR env model (files.getD i fileDefault)) ∧
    (((process_batch env model files).getD i (failed_record "")).Status = "No DR"
      ↔ predNoDR env model (files.getD i fileDefault)) ∧
    (((process_batch env model files).getD i (failed_record "")).Status = "Failed"
      ↔ ¬predDR env model (files.getD i fileDefault) ∧
        ¬predNoDR env model (files.getD i fileDefault)) := by
  have hmap := process_batch_eq_map env model files
  have hg : (process_batch env model files).getD i (failed_record "")
      = processFile env model (files.getD i fileDefault) := by
    rw [hmap]; exact getD_map_processFile env model files i
  obtain ⟨i1, i2, i3⟩ := processFile_status_iffs env model (files.getD i fileDefault)
  exact ⟨by rw [hmap]; simp, hg,
    by rw [hg]; exact processFile_filename env model (files.getD i fileDefault),
    by rw [hg]; exact i1, by rw [hg]; exact i2, by rw [hg]; exact i3⟩

/-- Claim C10: every failing batch item (the open raised, or predict returned
an error) is recorded as exactly the constant failed row built from the
filename alone — Prediction "Error", Confidence "N/A" — so the specific error
message appears nowhere in the batch records. -/
theorem C10_failed_row (env : Env) (model : Option ModelHandle) (file : UploadedFile)
    (h : itemFailed env model file = true) :
    processFile env model file = failed_record file.name ∧
    (processFile env model file).Prediction = "Error" ∧
    (processFile env model file).Confidence = "N/A" := by
  rcases batch_trichotomy env model file with ⟨heq, -, -, -, -⟩ | ⟨-, hf, -, -⟩ | ⟨-, hf, -, -⟩
  · exact ⟨heq, by rw [heq]; rfl, by rw [heq]; rfl⟩
  · simp [h] at hf
  · simp [h] at hf

/-- Claim C10, witness: a file whose open raises is recorded as the constant
failed row. -/
theorem C10_witness :
    itemFailed envClean (some ())
        ⟨"broken.png", Except.error "cannot identify image file"⟩ = true ∧
    (processFile envClean (some ())
        ⟨"broken.png", Except.error "cannot identify image file"⟩
        = failed_record "broken.png" ∧
      (processFile envClean (some ())
        ⟨"broken.png", Except.error "cannot identify image file"⟩).Prediction = "Error" ∧
      (processFile envClean (some ())
        ⟨"broken.png", Except.error "cannot identify image file"⟩).Confidence = "N/A") :=
  ⟨rfl, C10_failed_row envClean (some ())
    ⟨"broken.png", Except.error "cannot identify image file"⟩ rfl⟩

/-- Python `name.split(sep)` for a single-character separator, over character
lists; the empty list splits to one empty group, as in Python. -/
def pySplitCh (sep : Char) : List Char → List (List Char)
  | [] => [[]]
  | c :: cs =>
    if c = sep then [] :: pySplitCh sep cs
    else
      match pySplitCh sep cs with
      | [] => [[c]]
      | g :: gs => (c :: g) :: gs

/-- Python `name.split(sep)` on strings. -/
def pySplit (sep : Char) (s : String) : List String :=
  (pySplitCh sep s.toList).map String.mk

/-- The suggested single-report filename (src/app.py:324): the template
applied to `uploaded_file.name.split(".")[0]`, the part of the uploaded name
before the FIRST dot. -/
def report_file_name (uploadedName : String) : String :=
  "DR_Report_" ++ ((pySplit '.' uploadedName).headD "") ++ ".txt"

/-- The suggested batch export filename (src/app.py:407), a constant. -/
def batch_csv_file_name : String := "batch_dr_analysis.csv"

/-- Following the words of claim C9: the uploaded name with its extension
removed, i.e. everything before the LAST dot (a dotless name unchanged).
Stated only to be compared against `report_file_name`. -/
def spec_basename (name : String) : String :=
  if (pySplit '.' name).length ≤ 1 then name
  else String.intercalate "." (pySplit '.' name).dropLast

lemma pySplitCh_no_sep (sep : Char) (l : List Char) (h : sep ∉ l) :
    pySplitCh sep l = [l] := by
  induction l with
  | nil => rfl
  | cons c cs ih =>
    have hc : ¬c = sep := fun hh => h (by rw [hh]; exact List.mem_cons_self _ _)
    have hcs : sep ∉ cs := fun hm => h (List.mem_cons_of_mem _ hm)
    simp [pySplitCh, hc, ih hcs]

lemma pySplitCh_sep_append (sep : Char) (l1 l2 : List Char) (h : sep ∉ l1) :
    pySplitCh sep (l1 ++ sep :: l2) = l1 :: pySplitCh sep l2 := by
  induction l1 with
  | nil => simp [pySplitCh]
  | cons c cs ih =>
    have hc : ¬c = sep := fun hh => h (by rw [hh]; exact List.mem_cons_self _ _)
    have hcs : sep ∉ cs := fun hm => h (List.mem_cons_of_mem _ hm)
    simp [pySplitCh, hc, ih hcs]

lemma pySplit_stem_ext (stem ext : String) (hs : '.' ∉ stem.toList)
    (he : '.' ∉ ext.toList) :
    pySplit '.' (stem ++ "." ++ ext) = [stem, ext] := by
  unfold pySplit
  have hdata : (stem ++ "." ++ ext).toList = stem.toList ++ '.' :: ext.toList := by
    have h1 : (stem ++ "." ++ ext).toList = (stem.toList ++ ['.']) ++ ext.toList := rfl
    rw [h1, List.append_assoc]
    rfl
  rw [hdata, pySplitCh_sep_append _ _ _ hs, pySplitCh_no_sep _ _ he]
  rfl

/-- Claim C9, counterexample: for a name with two dots, the code offers the
report under the part of the name before the first dot, not under the
extension-removed basename the claim asserts. -/
theorem C9_counterexample :
    report_file_name "retina.scan.png" = "DR_Report_retina.txt" ∧
    "DR_Report_" ++ spec_basename "retina.scan.png" ++ ".txt" = "DR_Report_retina.scan.txt" ∧
    report_file_name "retina.scan.png" ≠
      "DR_Report_" ++ spec_basename "retina.scan.png" ++ ".txt" := by
  refine ⟨?_, ?_, ?_⟩ <;> decide

/-- Claim C9, amended: the single-image report is offered under
DR_Report_ + (part of the uploaded name before the FIRST dot) + .txt — which
agrees with the extension-removed basename exactly when the name has at most
one dot — and the batch tabular export is offered under the constant name
batch_dr_analysis.csv. -/
theorem C9_amended_names (stem ext : String)
    (hs : '.' ∉ stem.toList) (he : '.' ∉ ext.toList) :
    report_file_name (stem ++ "." ++ ext) = "DR_Report_" ++ stem ++ ".txt" ∧
    spec_basename (stem ++ "." ++ ext) = stem ∧
    batch_csv_file_name = "batch_dr_analysis.csv" := by
  have hsplit := pySplit_stem_ext stem ext hs he
  refine ⟨?_, ?_, rfl⟩
  · unfold report_file_name
    rw [hsplit]
    rfl
  · unfold spec_basename
    rw [hsplit]
    rfl

/-- Claim C9, witness for the amended theorem, at the single-dot name
retina.png. -/
theorem C9_amended_witness :
    ('.' ∉ "retina".toList ∧ '.' ∉ "png".toList) ∧
    (report_file_name ("retina" ++ "." ++ "png") = "DR_Report_" ++ "retina" ++ ".txt" ∧
      spec_basename ("retina" ++ "." ++ "png") = "retina" ∧
      batch_csv_file_name = "batch_dr_analysis.csv") :=
  ⟨⟨by decide, by decide⟩, C9_amended_names "retina" "png" (by decide) (by decide)⟩
